import Mathlib

/-!
Shallow embedding of the spostats-backend token-lifecycle code
(src/routes/auth.ts, src/routes/api.ts, the JWT session manager, and the
session-variant middleware), together with theorems settling the frozen
claims about the natural-language specification.

Conventions of the embedding:
* TypeScript optional string fields (`access_token?: string`) become
  `Option String`; JavaScript truthiness of such a field (`!!x`) is `truthy`
  below (both `undefined` and `""` are falsy).
* Timestamps (`Date.now()`, `token_expires_at`) are `Int` milliseconds; the
  JavaScript number 0 is falsy, which the embedding reproduces explicitly.
* Network calls are modelled by passing the provider's response as an
  explicit argument (`RefreshResult`, `ExchangeResult`, `ProfileResult`,
  `UpstreamResult`); the number of refresh / upstream requests a handler
  issues is reported in its result so "no network call" claims are statable.
-/

namespace Spostats

/-- JavaScript truthiness of an optional string field: `undefined` and the
empty string are falsy, every other string is truthy. -/
def truthy : Option String → Bool
  | none => false
  | some s => s != ""

/-- Minimal user identity snapshot stored in the session
(`{ id, display_name, email, image }`, from the profile fetch). -/
structure UserInfo where
  id : String
  display_name : String
  email : String
  image : Option String
deriving Repr, DecidableEq

/-- The Credential Record as stored in the session / JWT cookie
(`SessionData` in the source): optional access token, refresh token,
absolute expiry in epoch milliseconds, and user snapshot. -/
structure SessionData where
  access_token : Option String
  refresh_token : Option String
  token_expires_at : Option Int
  user : Option UserInfo
deriving Repr, DecidableEq

/-- The expiry test used by the JWT `requireAuth` middleware
(`!sessionData.token_expires_at || Date.now() >= sessionData.token_expires_at - 60000`,
api.ts) and by the `/status` handlers
(`token_expires_at ? Date.now() >= token_expires_at - 60000 : true`, auth.ts).
A missing expiry counts as expired; so does the falsy number 0. -/
def tokenExpiredAt : Option Int → Int → Bool
  | none, _ => true
  | some t, now => t == 0 || decide (now ≥ t - 60000)

/-- The non-expiry test inside `JWTSessionManager.isSessionValid`
(`token_expires_at ? Date.now() < token_expires_at - 60000 : false`):
a missing (or falsy 0) expiry yields `false` here. -/
def isNotExpiredAt : Option Int → Int → Bool
  | none, _ => false
  | some t, now => t != 0 && decide (now < t - 60000)

/-- `JWTSessionManager.isSessionValid` (jwtSession utility, lines 100-106):
requires both tokens truthy, then accepts when the token is not expired
OR a refresh token is present. -/
def isSessionValid (sd? : Option SessionData) (now : Int) : Bool :=
  match sd? with
  | none => false
  | some s =>
    let hasTokens := truthy s.access_token && truthy s.refresh_token
    let isNotExpired := isNotExpiredAt s.token_expires_at now
    hasTokens && (isNotExpired || truthy s.refresh_token)

/-- Body of the `GET /status` response (JWT variant, auth.ts lines 402-421). -/
structure StatusResponse where
  authenticated : Bool
  tokenExpired : Bool
deriving Repr, DecidableEq

/-- `GET /status` handler (JWT variant): `authenticated` is
`isSessionValid(sessionData)`, `tokenExpired` uses the 60-second margin with
a missing expiry counting as expired. -/
def statusJWT (sd? : Option SessionData) (now : Int) : StatusResponse :=
  { authenticated := isSessionValid sd? now
    tokenExpired := tokenExpiredAt (sd?.bind SessionData.token_expires_at) now }

/-- Outcome of the provider's token endpoint on a `grant_type=refresh_token`
request: either a 2xx body `{access_token, expires_in, refresh_token?}` or a
thrown error (non-2xx / network). -/
inductive RefreshResult where
  | ok (access_token : String) (expires_in : Int) (refresh_token : Option String)
  | err
deriving Repr, DecidableEq

/-- Response the `requireAuth` middleware produces. -/
inductive AuthOutcome where
  | noSession
  | noRefreshToken
  | proceed (attached : SessionData)
  | refreshFailed
deriving Repr, DecidableEq

/-- Result of a `requireAuth` run: the outcome sent onward, the number of
refresh requests made to the provider's token endpoint, and the Credential
Record as stored afterwards (`none` when cleared / absent). -/
structure AuthResult where
  outcome : AuthOutcome
  refreshCalls : Nat
  stored : Option SessionData
deriving Repr, DecidableEq

/-- Session update performed by the JWT `requireAuth` middleware on a
successful refresh (api.ts lines 169-186): new access token, new expiry
`Date.now() + expires_in * 1000`, and the refresh token replaced only when
the provider returned a truthy one. -/
def refreshedSession (sd : SessionData) (now : Int)
    (newAccess : String) (ei : Int) (rt? : Option String) : SessionData :=
  { sd with
      access_token := some newAccess
      token_expires_at := some (now + ei * 1000)
      refresh_token := if truthy rt? then rt? else sd.refresh_token }

/-- The `requireAuth` middleware (JWT variant, api.ts lines 96-211; the
session variant in the unnamed route file has the same guard and refresh
logic). No session → 401 NO_SESSION; no refresh token → 401
NO_REFRESH_TOKEN; a truthy access token that is not within the 60-second
margin of expiry proceeds with no network call; otherwise exactly one
refresh request is made: on success the updated record is saved and the
request proceeds, on failure the session is cleared and 401 REFRESH_FAILED
is returned. -/
def requireAuthJWT (sd? : Option SessionData) (now : Int)
    (provider : RefreshResult) : AuthResult :=
  match sd? with
  | none => { outcome := .noSession, refreshCalls := 0, stored := none }
  | some sd =>
    if !truthy sd.refresh_token then
      { outcome := .noRefreshToken, refreshCalls := 0, stored := some sd }
    else
      let hasAccessToken := truthy sd.access_token
      let isTokenExpired := tokenExpiredAt sd.token_expires_at now
      if hasAccessToken && !isTokenExpired then
        { outcome := .proceed sd, refreshCalls := 0, stored := some sd }
      else
        match provider with
        | .ok newAccess ei rt? =>
          let sd' := refreshedSession sd now newAccess ei rt?
          { outcome := .proceed sd', refreshCalls := 1, stored := some sd' }
        | .err =>
          { outcome := .refreshFailed, refreshCalls := 1, stored := none }

/-- Response of the dedicated `POST /refresh` route (auth.ts lines 152-207;
the second session variant repeats it verbatim): 401 when no refresh token
is stored; on provider success a 200 with the new access token and the
updated session; on provider failure a 500 with the session left as it was. -/
inductive RefreshRouteResult where
  | noRefreshToken
  | ok (session : SessionData) (respondedAccessToken : String)
  | failed (session : SessionData)
deriving Repr, DecidableEq

/-- `POST /refresh` handler: the success branch destructures only
`{ access_token, expires_in }` from the provider response — a rotated
`refresh_token` in the response is ignored and the stored one kept — and the
catch branch answers 500 without touching the stored session. -/
def refreshRoute (sd : SessionData) (now : Int)
    (provider : RefreshResult) : RefreshRouteResult :=
  if !truthy sd.refresh_token then .noRefreshToken
  else
    match provider with
    | .ok newAccess ei _rt? =>
        .ok { sd with
                access_token := some newAccess
                token_expires_at := some (now + ei * 1000) } newAccess
    | .err => .failed sd

/-- The refresh token a refresh request sends for a given stored record:
`new URLSearchParams({ grant_type: 'refresh_token', refresh_token })` always
uses the currently stored `refresh_token`. -/
def refreshTokenSent (sd : SessionData) : Option String :=
  sd.refresh_token

/-- Outcome of the code-for-token exchange at the provider's token endpoint:
a 2xx body `{access_token, refresh_token, expires_in}` (fields may be absent
in a malformed body) or a thrown error. -/
inductive ExchangeResult where
  | ok (access_token : Option String) (refresh_token : Option String) (expires_in : Int)
  | err
deriving Repr, DecidableEq

/-- Outcome of the user-profile fetch performed with the new access token. -/
inductive ProfileResult where
  | ok (u : UserInfo)
  | err
deriving Repr, DecidableEq

/-- The redirect target chosen by an OAuth callback handler. -/
inductive CallbackOutcome where
  | oauthError (message : String)
  | stateMismatch
  | noState
  | missingCode
  | missingTokens
  | exchangeFailed
  | success
deriving Repr, DecidableEq

/-- Result of a callback handler run: the redirect outcome, and the
Credential Record committed to the session store (`none` when nothing was
committed). -/
structure CallbackResult where
  outcome : CallbackOutcome
  committed : Option SessionData
deriving Repr, DecidableEq

/-- `GET /callback` handler (JWT variant, auth.ts lines 281-392).
Order of checks: a provider `error` query parameter redirects to the error
page; a missing state or a state different from the `oauth_state` cookie
redirects with `state_mismatch`; a missing code redirects with `no_code`;
a failed exchange or profile fetch redirects with `oauth_failed`; a 2xx
exchange body missing either token redirects with `missing_tokens`. Only
the success path commits a session. -/
def callbackJWT (error state code storedState : Option String)
    (ex : ExchangeResult) (prof : ProfileResult) (now : Int) : CallbackResult :=
  if truthy error then { outcome := .oauthError (error.getD ""), committed := none }
  else if !truthy state || state != storedState then
    { outcome := .stateMismatch, committed := none }
  else if !truthy code then { outcome := .missingCode, committed := none }
  else
    match ex with
    | .err => { outcome := .exchangeFailed, committed := none }
    | .ok at? rt? ei =>
      if !truthy at? || !truthy rt? then
        { outcome := .missingTokens, committed := none }
      else
        match prof with
        | .err => { outcome := .exchangeFailed, committed := none }
        | .ok u =>
          { outcome := .success
            committed := some { access_token := at?, refresh_token := rt?,
                                token_expires_at := some (now + ei * 1000),
                                user := some u } }

/-- `GET /callback` handler (session-ID-state variant, auth.ts lines
623-734). The source comment reads "Verify state parameter (should match
session ID from login)", but the code only checks that a state is present
(`if (!state)`); `pendingState` — the session ID that `login` embedded as
the state — is available to the handler yet never compared against the
returned state. There is also no missing-token check before the commit. -/
def callbackSessionId (error state code : Option String) (pendingState : String)
    (ex : ExchangeResult) (prof : ProfileResult) (now : Int) : CallbackResult :=
  if truthy error then { outcome := .oauthError (error.getD ""), committed := none }
  else if !truthy state then { outcome := .noState, committed := none }
  else if !truthy code then { outcome := .missingCode, committed := none }
  else
    match ex with
    | .err => { outcome := .exchangeFailed, committed := none }
    | .ok at? rt? ei =>
      match prof with
      | .err => { outcome := .exchangeFailed, committed := none }
      | .ok u =>
        { outcome := .success
          committed := some { access_token := at?, refresh_token := rt?,
                              token_expires_at := some (now + ei * 1000),
                              user := some u } }

/-- Query parameters of a proxied catalog request as they arrive from the
client (each absent or a string). -/
structure Query where
  time_range : Option String
  limit : Option String
deriving Repr, DecidableEq

/-- The upstream catalog request a handler executes: bearer token and the
query parameters as interpolated into the upstream URL. -/
structure UpstreamReq where
  bearer : String
  time_range : String
  limit : String
deriving Repr, DecidableEq

/-- JavaScript `a || b` for an optional string: the default applies when the
value is `undefined` or the (falsy) empty string. Used by the stats-variant
handlers (`req.query.time_range || 'medium_term'`). -/
def jsOr (s? : Option String) (dflt : String) : String :=
  match s? with
  | none => dflt
  | some s => if s == "" then dflt else s

/-- The simple `requireAuth` middleware (api.ts lines 9-14, and the
identical check in the stats route file): only the presence of a truthy
`access_token` is checked — `token_expires_at` is never consulted. -/
def requireAuthSimple (sd : SessionData) : Bool :=
  truthy sd.access_token

/-- `GET /top-tracks` (simple variant, api.ts lines 32-43): after the
presence-only auth check, executes the upstream request with the stored
access token; destructuring defaults (`time_range = 'medium_term'`,
`limit = 20`) apply only when the query parameter is absent. -/
def topTracksSimpleReq (sd : SessionData) (q : Query) : Option UpstreamReq :=
  if requireAuthSimple sd then
    some { bearer := sd.access_token.getD ""
           time_range := q.time_range.getD "medium_term"
           limit := q.limit.getD "20" }
  else none

/-- Upstream request built by `GET /top-tracks` (JWT variant, api.ts lines
232-245), which runs after `requireAuthJWT` and uses the attached session's
access token with the same destructuring defaults as the simple variant. -/
def topTracksJWTReq (sd : SessionData) (q : Query) : UpstreamReq :=
  { bearer := sd.access_token.getD ""
    time_range := q.time_range.getD "medium_term"
    limit := q.limit.getD "20" }

/-- `GET /top-tracks` (stats variant, stats route file lines 343-360 of the
concatenated api source): after the presence-only auth check, sends
`params: { limit: 50, time_range: req.query.time_range || 'medium_term' }` —
the client's `limit` parameter is ignored and 50 is always sent. -/
def topTracksStatsReq (sd : SessionData) (q : Query) : Option UpstreamReq :=
  if requireAuthSimple sd then
    some { bearer := sd.access_token.getD ""
           time_range := jsOr q.time_range "medium_term"
           limit := "50" }
  else none

/-- Outcome of the upstream catalog call made by a handler. -/
inductive UpstreamResult where
  | ok
  | httpError (status : Int)
  | networkError
deriving Repr, DecidableEq

/-- `handleApiError` (JWT variant, api.ts lines 214-226): an Axios error
carrying an upstream response is mirrored to the client with the upstream
status (and body); anything else becomes a 500. It performs no retry, no
refresh and no session mutation. -/
def handleApiErrorStatus : UpstreamResult → Int
  | .ok => 200
  | .httpError s => s
  | .networkError => 500

/-- Result of running a proxied-endpoint handler after the middleware:
status sent to the client, refresh requests the handler itself made,
upstream catalog calls made, and the stored record afterwards. -/
structure HandlerResult where
  status : Int
  refreshCalls : Nat
  upstreamCalls : Nat
  stored : Option SessionData
deriving Repr, DecidableEq

/-- `GET /top-tracks` handler body (JWT variant, api.ts lines 232-252):
one upstream call; a 2xx is forwarded as 200; any failure goes through
`handleApiErrorStatus`. The handler never refreshes, never retries and
never touches the stored session. -/
def topTracksJWTHandler (sd : SessionData) (up : UpstreamResult) : HandlerResult :=
  match up with
  | .ok => { status := 200, refreshCalls := 0, upstreamCalls := 1, stored := some sd }
  | .httpError s =>
      { status := handleApiErrorStatus (.httpError s), refreshCalls := 0,
        upstreamCalls := 1, stored := some sd }
  | .networkError =>
      { status := handleApiErrorStatus .networkError, refreshCalls := 0,
        upstreamCalls := 1, stored := some sd }

/-- Two concurrent requests in the JWT variant: the Credential Record lives
entirely in the client's cookie, so both requests present the same session
snapshot and each runs `requireAuthJWT` independently — the code has no
per-session lock, single-flight, or shared server-side record through which
one request could observe the other's refresh. The total number of refresh
requests reaching the provider is the sum over the two runs. -/
def concurrentRefreshCalls (sd : SessionData) (now : Int)
    (pr1 pr2 : RefreshResult) : Nat :=
  (requireAuthJWT (some sd) now pr1).refreshCalls +
    (requireAuthJWT (some sd) now pr2).refreshCalls

/-! Concrete records used to instantiate the theorems below. -/

/-- Concrete user snapshot for the callback scenarios. -/
def c1User : UserInfo :=
  { id := "u1", display_name := "User One", email := "u1@example.com", image := none }

/-- Session whose access token is fresh, for the gateway scenarios. -/
def c2Session : SessionData :=
  { access_token := some "FRESH_AT", refresh_token := some "RT",
    token_expires_at := some 9999999, user := none }

/-- Session with an access token expired far beyond the 60-second margin. -/
def c4Session : SessionData :=
  { access_token := some "EXPIRED_AT", refresh_token := some "RT",
    token_expires_at := some 5000, user := none }

/-- Session holding the pre-rotation refresh token `OLD_RT`. -/
def c5Session : SessionData :=
  { access_token := some "OLD_AT", refresh_token := some "OLD_RT",
    token_expires_at := some 5000, user := none }

/-- The session stored after `POST /refresh` succeeds on `c5Session` at time
1000000 with provider response `{NEW_AT, 3600, NEW_RT}`: the refresh token
is still the old one. -/
def c5After : SessionData :=
  { access_token := some "NEW_AT", refresh_token := some "OLD_RT",
    token_expires_at := some 4600000, user := none }

/-! Claim theorems. -/

/-- C1: the session-ID-state callback variant commits a full Credential
Record on a callback whose returned state is present but different from the
stored pending state (the session ID embedded at login), instead of failing
with a state mismatch — contradicting the claim and the handler's own
comment that the state "should match session ID from login". -/
theorem c1_sessionid_callback_commits_despite_state_mismatch :
    (callbackSessionId none (some "forged-state") (some "auth-code") "real-session-id"
        (.ok (some "AT") (some "RT") 3600) (.ok c1User) 1000).outcome =
      CallbackOutcome.success ∧
    (callbackSessionId none (some "forged-state") (some "auth-code") "real-session-id"
        (.ok (some "AT") (some "RT") 3600) (.ok c1User) 1000).committed =
      some { access_token := some "AT", refresh_token := some "RT",
             token_expires_at := some 3601000, user := some c1User } ∧
    "forged-state" ≠ "real-session-id" := by
  refine ⟨by decide, by decide, by decide⟩

/-- C2 counterexample: on an upstream 401 with a fresh-looking token, the
JWT top-tracks handler performs zero forced refreshes and zero retries (one
upstream call in total), mirrors the 401 to the client, and leaves the
stored Credential Record intact — the claim requires exactly one forced
refresh, one retry, and invalidation. -/
theorem c2_counterexample_upstream_401_no_retry :
    topTracksJWTHandler c2Session (.httpError 401) =
      { status := 401, refreshCalls := 0, upstreamCalls := 1,
        stored := some c2Session } := by
  decide

/-- C2 amended: if the upstream provider responds with an authorization
failure (or any HTTP error), the gateway performs no forced refresh and no
retry: it makes exactly one upstream call, responds with the upstream
status, and leaves the Credential Record unchanged. -/
theorem c2_amended_auth_failure_passthrough (sd : SessionData) (s : Int) :
    topTracksJWTHandler sd (.httpError s) =
      { status := s, refreshCalls := 0, upstreamCalls := 1, stored := some sd } :=
  rfl

/-- C4 counterexample: a failing refresh attempt through the dedicated
`POST /refresh` route surfaces the failure (500) while both the access and
the refresh token remain stored — the record is not invalidated in full. -/
theorem c4_counterexample_route_failure_keeps_tokens :
    refreshRoute c4Session 1000000 .err = .failed c4Session ∧
    truthy c4Session.access_token = true ∧
    truthy c4Session.refresh_token = true := by
  refine ⟨by decide, by decide, by decide⟩

/-- C4 amended: a refresh failure inside the `requireAuth` middleware clears
the stored Credential Record in full (session cleared, nothing stored)
before the 401 is surfaced, but a refresh failure through the dedicated
`POST /refresh` endpoint leaves the stored record unchanged and surfaces a
500. -/
theorem c4_amended_middleware_clears_route_keeps (sd : SessionData) (now : Int)
    (hrt : truthy sd.refresh_token = true)
    (hstale : (truthy sd.access_token && !tokenExpiredAt sd.token_expires_at now) = false) :
    requireAuthJWT (some sd) now .err =
      { outcome := .refreshFailed, refreshCalls := 1, stored := none } ∧
    refreshRoute sd now .err = .failed sd := by
  constructor
  · simp [requireAuthJWT, hrt, hstale]
  · simp [refreshRoute, hrt]

/-- C4 witness: the amended statement at a concrete expired session. -/
theorem c4_witness :
    requireAuthJWT (some c4Session) 1000000 .err =
      { outcome := .refreshFailed, refreshCalls := 1, stored := none } ∧
    refreshRoute c4Session 1000000 .err = .failed c4Session :=
  c4_amended_middleware_clears_route_keeps c4Session 1000000 (by decide) (by decide)

/-- C5 counterexample: a successful refresh through `POST /refresh` whose
provider response carries the rotated refresh token `NEW_RT` leaves the old
`OLD_RT` stored, and the next refresh request for that session sends
`OLD_RT` — the rotated value is never adopted. -/
theorem c5_counterexample_route_ignores_rotation :
    refreshRoute c5Session 1000000 (.ok "NEW_AT" 3600 (some "NEW_RT")) =
      .ok c5After "NEW_AT" ∧
    c5After.refresh_token = some "OLD_RT" ∧
    refreshTokenSent c5After = some "OLD_RT" ∧
    some "OLD_RT" ≠ (some "NEW_RT" : Option String) := by
  refine ⟨by decide, by decide, by decide, by decide⟩

/-- C5 amended: the `requireAuth` middleware honors rotation — when the
provider returns a (non-empty) new refresh token, the stored record adopts
it and a subsequent refresh request sends the new value; the dedicated
`POST /refresh` endpoint ignores a returned refresh token: the stored value
is unchanged, so the old refresh token is reused there. -/
theorem c5_amended_rotation (sd : SessionData) (now ei : Int)
    (newAccess rt : String)
    (hne : rt ≠ "")
    (hrt : truthy sd.refresh_token = true)
    (hstale : (truthy sd.access_token && !tokenExpiredAt sd.token_expires_at now) = false) :
    (requireAuthJWT (some sd) now (.ok newAccess ei (some rt))).stored =
      some (refreshedSession sd now newAccess ei (some rt)) ∧
    (refreshedSession sd now newAccess ei (some rt)).refresh_token = some rt ∧
    refreshTokenSent (refreshedSession sd now newAccess ei (some rt)) = some rt ∧
    refreshRoute sd now (.ok newAccess ei (some rt)) =
      .ok { sd with access_token := some newAccess,
                    token_expires_at := some (now + ei * 1000) } newAccess ∧
    ({ sd with access_token := some newAccess,
               token_expires_at := some (now + ei * 1000) } : SessionData).refresh_token
      = sd.refresh_token := by
  refine ⟨?_, ?_, ?_, ?_, rfl⟩
  · simp [requireAuthJWT, hrt, hstale]
  · simp [refreshedSession, truthy, hne]
  · simp [refreshTokenSent, refreshedSession, truthy, hne]
  · simp [refreshRoute, hrt]

/-- C5 witness: the amended statement at a concrete stale session with a
rotating provider. -/
theorem c5_witness :
    (requireAuthJWT (some c5Session) 1000000 (.ok "NEW_AT" 3600 (some "NEW_RT"))).stored =
      some (refreshedSession c5Session 1000000 "NEW_AT" 3600 (some "NEW_RT")) ∧
    (refreshedSession c5Session 1000000 "NEW_AT" 3600 (some "NEW_RT")).refresh_token =
      some "NEW_RT" ∧
    refreshTokenSent (refreshedSession c5Session 1000000 "NEW_AT" 3600 (some "NEW_RT")) =
      some "NEW_RT" ∧
    refreshRoute c5Session 1000000 (.ok "NEW_AT" 3600 (some "NEW_RT")) =
      .ok { c5Session with access_token := some "NEW_AT",
                           token_expires_at := some 4600000 } "NEW_AT" ∧
    ({ c5Session with access_token := some "NEW_AT",
                      token_expires_at := some 4600000 } : SessionData).refresh_token
      = c5Session.refresh_token := by
  have h := c5_amended_rotation c5Session 1000000 3600 "NEW_AT" "NEW_RT"
    (by decide) (by decide) (by decide)
  simpa using h

/-- Valid session whose expiry is comfortably beyond the safety margin at
the times used below. -/
def c3Session : SessionData :=
  { access_token := some "AT", refresh_token := some "RT",
    token_expires_at := some 200000, user := none }

/-- C3: for a Credential Record with both tokens present and `expires_at`
set, the middleware's freshness path makes no refresh call and passes the
record through unchanged when `expires_at - now > 60000`, and makes exactly
one refresh call (whatever the provider then answers) when
`expires_at - now ≤ 60000`. -/
theorem c3_margin_no_refresh_vs_one_refresh (sd : SessionData) (now t : Int)
    (pr : RefreshResult)
    (hat : truthy sd.access_token = true)
    (hrt : truthy sd.refresh_token = true)
    (hexp : sd.token_expires_at = some t)
    (hnow : 0 ≤ now) :
    (60000 < t - now →
      requireAuthJWT (some sd) now pr =
        { outcome := .proceed sd, refreshCalls := 0, stored := some sd }) ∧
    (t - now ≤ 60000 → (requireAuthJWT (some sd) now pr).refreshCalls = 1) := by
  constructor
  · intro hfar
    have ht0 : t ≠ 0 := by omega
    have hlt : ¬ (t - 60000 ≤ now) := by omega
    simp [requireAuthJWT, hrt, hat, tokenExpiredAt, hexp, ht0, hlt]
  · intro hnear
    have hexpired : tokenExpiredAt sd.token_expires_at now = true := by
      rw [hexp]
      simp only [tokenExpiredAt, Bool.or_eq_true, beq_iff_eq, decide_eq_true_eq,
        ge_iff_le]
      omega
    cases pr with
    | ok a e r => simp [requireAuthJWT, hrt, hexpired]
    | err => simp [requireAuthJWT, hrt, hexpired]

/-- C3 witness: at `now = 100` the margin holds (no call, record unchanged);
at `now = 500000` the token is past the margin and exactly one refresh call
is made. -/
theorem c3_witness :
    requireAuthJWT (some c3Session) 100 .err =
      { outcome := .proceed c3Session, refreshCalls := 0, stored := some c3Session } ∧
    (requireAuthJWT (some c3Session) 500000 .err).refreshCalls = 1 := by
  refine ⟨(c3_margin_no_refresh_vs_one_refresh c3Session 100 200000 .err
      (by decide) (by decide) rfl (by decide)).1 (by decide),
    (c3_margin_no_refresh_vs_one_refresh c3Session 500000 200000 .err
      (by decide) (by decide) rfl (by decide)).2 (by decide)⟩

/-- Stale session used for the C6 witness. -/
def c6Session : SessionData :=
  { access_token := some "OLD_AT", refresh_token := some "RT",
    token_expires_at := some 500, user := none }

/-- C6: every Credential Record committed by a successful code exchange
carries `expires_at = now + expires_in*1000`, and a successful refresh in
the middleware stores the newly returned access token with
`expires_at = now + expires_in*1000`; hence with `expires_in > 0` the new
expiry strictly exceeds an already-expired previous value. -/
theorem c6_expiry_arithmetic
    (error state code storedState at? rt? : Option String) (ei now oldT : Int)
    (u : UserInfo) (rec sd : SessionData) (newAccess : String) (rt2? : Option String)
    (hcb : (callbackJWT error state code storedState (.ok at? rt? ei) (.ok u) now).committed
             = some rec)
    (hrt : truthy sd.refresh_token = true)
    (hstale : (truthy sd.access_token && !tokenExpiredAt sd.token_expires_at now) = false)
    (hold : sd.token_expires_at = some oldT)
    (hpast : oldT ≤ now) (hei : 0 < ei) :
    rec.token_expires_at = some (now + ei * 1000) ∧
    requireAuthJWT (some sd) now (.ok newAccess ei rt2?) =
      { outcome := .proceed (refreshedSession sd now newAccess ei rt2?),
        refreshCalls := 1, stored := some (refreshedSession sd now newAccess ei rt2?) } ∧
    (refreshedSession sd now newAccess ei rt2?).access_token = some newAccess ∧
    (refreshedSession sd now newAccess ei rt2?).token_expires_at = some (now + ei * 1000) ∧
    oldT < now + ei * 1000 := by
  have hei1000 : 0 < ei * 1000 := by positivity
  refine ⟨?_, ?_, rfl, rfl, by omega⟩
  · simp only [callbackJWT] at hcb
    split at hcb
    · simp at hcb
    · split at hcb
      · simp at hcb
      · split at hcb
        · simp at hcb
        · split at hcb
          · simp at hcb
          · simp only [Option.some.injEq] at hcb
            subst hcb
            rfl
  · simp [requireAuthJWT, hrt, hstale]

/-- C6 witness: concrete successful exchange and refresh with
`expires_in = 3600` at `now = 1000` on a record expired at 500. -/
theorem c6_witness :
    ({ access_token := some "AT", refresh_token := some "RT",
       token_expires_at := some 3601000, user := some c1User } : SessionData).token_expires_at
      = some 3601000 ∧
    requireAuthJWT (some c6Session) 1000 (.ok "NEW_AT" 3600 none) =
      { outcome := .proceed (refreshedSession c6Session 1000 "NEW_AT" 3600 none),
        refreshCalls := 1, stored := some (refreshedSession c6Session 1000 "NEW_AT" 3600 none) } ∧
    (refreshedSession c6Session 1000 "NEW_AT" 3600 none).access_token = some "NEW_AT" ∧
    (refreshedSession c6Session 1000 "NEW_AT" 3600 none).token_expires_at = some 3601000 ∧
    (500 : Int) < 3601000 := by
  have h := c6_expiry_arithmetic none (some "st") (some "cd") (some "st")
    (some "AT") (some "RT") 3600 1000 500 c1User
    { access_token := some "AT", refresh_token := some "RT",
      token_expires_at := some 3601000, user := some c1User }
    c6Session "NEW_AT" none (by decide) (by decide) (by decide) rfl
    (by decide) (by decide)
  simpa using h

/-- Session with an access token expired far beyond the margin, used to
exhibit the simple variant's missing expiry check. -/
def c7StaleSession : SessionData :=
  { access_token := some "STALE_AT", refresh_token := some "RT",
    token_expires_at := some 1000, user := none }

/-- Fresh session for the C7 witness. -/
def c7FreshSession : SessionData :=
  { access_token := some "AT", refresh_token := some "RT",
    token_expires_at := some 200000, user := none }

/-- C7 counterexample: at `now = 1000000` the stored token has been expired
for far more than the 60-second margin, yet the simple-variant top-tracks
path executes the upstream request with that token as bearer. -/
theorem c7_counterexample_simple_variant_ignores_expiry :
    topTracksSimpleReq c7StaleSession { time_range := none, limit := none } =
      some { bearer := "STALE_AT", time_range := "medium_term", limit := "20" } ∧
    tokenExpiredAt c7StaleSession.token_expires_at 1000000 = true ∧
    (1000000 : Int) - 1000 > 60000 := by
  refine ⟨by decide, by decide, by decide⟩

/-- C7 amended: in the JWT variant, whenever the middleware lets a request
through without any refresh call, the attached token's expiry is more than
the 60-second margin away (every other path refreshes first); the simple
session variant, by contrast, executes the upstream call with the stored
token whenever it is non-empty, regardless of `token_expires_at`. -/
theorem c7_amended_fresh_or_refreshed_vs_simple (sd : SessionData) (now : Int)
    (pr : RefreshResult) (q : Query) :
    (requireAuthJWT (some sd) now pr =
        { outcome := .proceed sd, refreshCalls := 0, stored := some sd } →
      tokenExpiredAt sd.token_expires_at now = false) ∧
    (truthy sd.access_token = true →
      topTracksSimpleReq sd q =
        some { bearer := sd.access_token.getD ""
               time_range := q.time_range.getD "medium_term"
               limit := q.limit.getD "20" }) := by
  constructor
  · intro h
    simp only [requireAuthJWT] at h
    split at h
    · simp at h
    · split at h
      · rename_i hg
        simp only [Bool.and_eq_true, Bool.not_eq_true'] at hg
        exact hg.2
      · cases pr with
        | ok a e r => simp at h
        | err => simp at h
  · intro h
    simp [topTracksSimpleReq, requireAuthSimple, h]

/-- C7 witness: the fresh session proceeds only because its expiry clears
the margin, and the simple variant calls upstream with the stale token. -/
theorem c7_witness :
    tokenExpiredAt c7FreshSession.token_expires_at 100 = false ∧
    topTracksSimpleReq c7StaleSession { time_range := none, limit := none } =
      some { bearer := "STALE_AT", time_range := "medium_term", limit := "20" } := by
  have h1 := (c7_amended_fresh_or_refreshed_vs_simple c7FreshSession 100 .err
      { time_range := none, limit := none }).1 (by decide)
  have h2 := (c7_amended_fresh_or_refreshed_vs_simple c7StaleSession 100 .err
      { time_range := none, limit := none }).2 (by decide)
  exact ⟨h1, by simpa using h2⟩

/-- Stale session shared by two concurrent requests in the C8 scenario. -/
def c8Session : SessionData :=
  { access_token := some "AT", refresh_token := some "RT",
    token_expires_at := some 1000, user := none }

/-- C8 counterexample: two concurrent gateway calls carrying the same stale
session snapshot each trigger their own refresh — the provider receives two
refresh requests, not at most one. -/
theorem c8_counterexample_two_refreshes :
    concurrentRefreshCalls c8Session 1000000 (.ok "N1" 3600 none) (.ok "N2" 3600 none) = 2 ∧
    ¬ concurrentRefreshCalls c8Session 1000000 (.ok "N1" 3600 none) (.ok "N2" 3600 none) ≤ 1 := by
  refine ⟨by decide, by decide⟩

/-- C8 amended: refresh attempts are not serialized — the JWT session lives
in the request cookie and the code has no per-session lock or single-flight
guard, so each of two concurrent callers observing the same stale record
performs its own refresh: exactly two refresh requests reach the provider. -/
theorem c8_amended_each_caller_refreshes (sd : SessionData) (now : Int)
    (pr1 pr2 : RefreshResult)
    (hrt : truthy sd.refresh_token = true)
    (hstale : (truthy sd.access_token && !tokenExpiredAt sd.token_expires_at now) = false) :
    concurrentRefreshCalls sd now pr1 pr2 = 2 := by
  have h1 : (requireAuthJWT (some sd) now pr1).refreshCalls = 1 := by
    cases pr1 <;> simp [requireAuthJWT, hrt, hstale]
  have h2 : (requireAuthJWT (some sd) now pr2).refreshCalls = 1 := by
    cases pr2 <;> simp [requireAuthJWT, hrt, hstale]
  simp [concurrentRefreshCalls, h1, h2]

/-- C8 witness: the amended statement for a concrete stale session. -/
theorem c8_witness :
    concurrentRefreshCalls c8Session 1000000 .err .err = 2 :=
  c8_amended_each_caller_refreshes c8Session 1000000 .err .err (by decide) (by decide)

/-- Authenticated session for the C9 scenarios. -/
def c9Session : SessionData :=
  { access_token := some "AT", refresh_token := some "RT",
    token_expires_at := some 9999999, user := none }

/-- C9 counterexample: the stats-variant top-tracks handler sends
`limit=50` upstream both when the client asked for `limit=7` and when the
client sent no limit at all — the parameter is neither passed through nor
defaulted to 20. -/
theorem c9_counterexample_stats_limit_is_50 :
    topTracksStatsReq c9Session { time_range := none, limit := some "7" } =
      some { bearer := "AT", time_range := "medium_term", limit := "50" } ∧
    topTracksStatsReq c9Session { time_range := none, limit := none } =
      some { bearer := "AT", time_range := "medium_term", limit := "50" } ∧
    ("50" : String) ≠ "7" ∧ ("50" : String) ≠ "20" := by
  refine ⟨by decide, by decide, by decide, by decide⟩

/-- C9 amended: the simple and JWT top-tracks handlers pass `time_range` and
`limit` through with defaults `medium_term` and `20`; the stats-variant
handler passes through only `time_range` (defaulting `medium_term`, also for
an empty string) and always sends `limit=50`, ignoring the client's value. -/
theorem c9_amended_passthrough (sd : SessionData) (q : Query)
    (h : truthy sd.access_token = true) :
    topTracksSimpleReq sd q =
      some { bearer := sd.access_token.getD ""
             time_range := q.time_range.getD "medium_term"
             limit := q.limit.getD "20" } ∧
    topTracksJWTReq sd q =
      { bearer := sd.access_token.getD ""
        time_range := q.time_range.getD "medium_term"
        limit := q.limit.getD "20" } ∧
    topTracksStatsReq sd q =
      some { bearer := sd.access_token.getD ""
             time_range := jsOr q.time_range "medium_term"
             limit := "50" } := by
  refine ⟨by simp [topTracksSimpleReq, requireAuthSimple, h], rfl,
    by simp [topTracksStatsReq, requireAuthSimple, h]⟩

/-- C9 witness: the amended statement at a concrete query. -/
theorem c9_witness :
    topTracksSimpleReq c9Session { time_range := some "long_term", limit := some "5" } =
      some { bearer := "AT", time_range := "long_term", limit := "5" } ∧
    topTracksJWTReq c9Session { time_range := some "long_term", limit := some "5" } =
      { bearer := "AT", time_range := "long_term", limit := "5" } ∧
    topTracksStatsReq c9Session { time_range := some "long_term", limit := some "5" } =
      some { bearer := "AT", time_range := "long_term", limit := "50" } := by
  have h := c9_amended_passthrough c9Session
    { time_range := some "long_term", limit := some "5" } (by decide)
  simpa using h

/-- Token-bearing session with no stored expiry at all, for the C10
witness. -/
def c10Session : SessionData :=
  { access_token := some "AT", refresh_token := some "RT",
    token_expires_at := none, user := none }

/-- C10: `isSessionValid` returns `true` for any session whose two tokens
are non-empty, for every current time and every `token_expires_at`
(including missing or long past), because the refresh-token disjunct makes
the expiry conjunct vacuous; consequently `GET /status` reports
`authenticated: true` for a fully expired token-bearing session. -/
theorem c10_isSessionValid_expiry_vacuous (sd : SessionData) (now : Int)
    (hat : truthy sd.access_token = true)
    (hrt : truthy sd.refresh_token = true) :
    isSessionValid (some sd) now = true ∧
    (statusJWT (some sd) now).authenticated = true := by
  have h : isSessionValid (some sd) now = true := by
    simp [isSessionValid, hat, hrt]
  exact ⟨h, h⟩

/-- C10 witness: a session with both tokens and no expiry field reports
authenticated at an arbitrary late time. -/
theorem c10_witness :
    isSessionValid (some c10Session) 1000000000000 = true ∧
    (statusJWT (some c10Session) 1000000000000).authenticated = true :=
  c10_isSessionValid_expiry_vacuous c10Session 1000000000000 (by decide) (by decide)

end Spostats
